import Mathlib

/-!
Shallow embedding of the ConfigListener reconciler from
`pkg/reconcile/pipeline/infinispan/handler/provision/config_listener.go`.

The resource store, the environment lookup for the operator image, and the
per-call outcomes of store operations are modelled as oracles carried by a
`Ctx` value; an invocation of the reconciler returns the ordered trace of
store calls it issued (loads, creates, updates, deletes, patches), which is
the observable behaviour the specification talks about.
-/

namespace InfinispanOperator

/-- Kubernetes object metadata: the fields the reconciler reads or writes. -/
structure ObjectMeta where
  name : String := ""
  ns : String := ""
  labels : List (String × String) := []
  creationTimestampIsZero : Bool := true
deriving DecidableEq, Repr

/-- A container of a pod template (name, image, positional args). -/
structure Container where
  name : String := ""
  image : String := ""
  args : List String := []
deriving DecidableEq, Repr

/-- Pod spec: containers and the service-account name. -/
structure PodSpec where
  containers : List Container := []
  serviceAccountName : String := ""
deriving DecidableEq, Repr

/-- Pod template spec: metadata (labels) plus the pod spec. -/
structure PodTemplateSpec where
  meta : ObjectMeta := {}
  spec : PodSpec := {}
deriving DecidableEq, Repr

/-- Deployment spec: selector labels, optional replica count, pod template. -/
structure DeploymentSpec where
  selectorMatchLabels : List (String × String) := []
  replicas : Option Int := none
  template : PodTemplateSpec := {}
deriving DecidableEq, Repr

/-- An apps/v1 Deployment. -/
structure Deployment where
  meta : ObjectMeta := {}
  spec : DeploymentSpec := {}
deriving DecidableEq, Repr

/-- An RBAC policy rule. -/
structure PolicyRule where
  apiGroups : List String := []
  resources : List String := []
  verbs : List String := []
deriving DecidableEq, Repr

/-- An RBAC Role. -/
structure Role where
  meta : ObjectMeta := {}
  rules : List PolicyRule := []
deriving DecidableEq, Repr

/-- Reference from a RoleBinding to a Role. -/
structure RoleRef where
  apiGroup : String := ""
  kind : String := ""
  name : String := ""
deriving DecidableEq, Repr

/-- A subject of a RoleBinding. -/
structure Subject where
  kind : String := ""
  name : String := ""
  ns : String := ""
deriving DecidableEq, Repr

/-- An RBAC RoleBinding. -/
structure RoleBinding where
  meta : ObjectMeta := {}
  roleRef : RoleRef := {}
  subjects : List Subject := []
deriving DecidableEq, Repr

/-- A ServiceAccount: metadata only. -/
structure ServiceAccount where
  meta : ObjectMeta := {}
deriving DecidableEq, Repr

/-- `const InfinispanListenerContainer = "infinispan-listener"`. -/
def InfinispanListenerContainer : String := "infinispan-listener"

/-- `rbacv1.ServiceAccountKind`. -/
def ServiceAccountKind : String := "ServiceAccount"

/-- The API group of the v2alpha1 Cache CRD (`v2alpha1.GroupVersion.Group`). -/
def v2alpha1Group : String := "infinispan.org"

/-- The API group of the v1 Infinispan CRD (`ispnv1.GroupVersion.Group`). -/
def ispnv1Group : String := "infinispan.org"

/-- The parent Infinispan resource: the fields the reconciler reads. -/
structure Infinispan where
  name : String := ""
  ns : String := ""
  configListenerEnabled : Bool := false
  labels : List (String × String) := []
deriving DecidableEq, Repr

/-- Modelled from the spec: `IsConfigListenerEnabled` (defined on the API type,
outside this slice) reads the parent's on/off "listener enabled" feature flag,
an external input that this core does not compute. -/
def Infinispan.IsConfigListenerEnabled (i : Infinispan) : Bool :=
  i.configListenerEnabled

/-- Modelled from the spec: `GetConfigListenerName` (defined on the API type,
outside this slice) derives the bundle's single shared name from the parent's
identity; all four bundle members and all lookups use this one derived key. -/
def Infinispan.GetConfigListenerName (i : Infinispan) : String :=
  i.name ++ "-config-listener"

/-- Modelled from the spec: `PodLabels` (defined on the API type, outside this
slice) returns the label set derived from the parent used to stamp owned
objects. -/
def Infinispan.PodLabels (i : Infinispan) : List (String × String) :=
  i.labels

/-- Map assignment `labels[k] = v` on an association list: replace the value at
an existing key, otherwise append the pair. -/
def setLabel (labels : List (String × String)) (k v : String) : List (String × String) :=
  if labels.any (fun p => p.1 = k) then
    labels.map (fun p => if p.1 = k then (k, v) else p)
  else
    labels ++ [(k, v)]

/-- Modelled from the spec: `kube.GetContainer` (outside this slice) locates
the container with the given name inside a pod spec, returning it when present. -/
def GetContainer (name : String) (spec : PodSpec) : Option Container :=
  spec.containers.find? (fun c => c.name = name)

/-- The kind of a bundle member, used for deletions by name. -/
inductive ObjKind where
  | deployment
  | role
  | roleBinding
  | serviceAccount
deriving DecidableEq, Repr

/-- One of the four bundle objects, carrying its full desired state. -/
inductive BundleObject where
  | serviceAccount (sa : ServiceAccount)
  | role (r : Role)
  | roleBinding (rb : RoleBinding)
  | deployment (d : Deployment)
deriving DecidableEq, Repr

/-- Outcome of a store Load call: success is carried separately; errors are
not-found or any other failure. -/
inductive LoadErr where
  | notFound
  | otherErr
deriving DecidableEq, Repr

/-- Outcome of a store Delete call. -/
inductive DeleteRes where
  | ok
  | notFound
  | otherErr
deriving DecidableEq, Repr

/-- A store call issued by the reconciler, in issue order. A `delete` records
the result the store returned; a `patch` is the persist step of CreateOrPatch,
carrying the merged object handed to the store. -/
inductive StoreOp where
  | load (name : String) (k : ObjKind)
  | create (o : BundleObject)
  | update (o : BundleObject)
  | delete (name : String) (k : ObjKind) (res : DeleteRes)
  | patch (d : Deployment)
deriving DecidableEq, Repr

/-- Whether a store call observably mutated cluster state: creates, updates and
patches do; a delete does only when the store actually deleted something
(not-found deletes nothing); a load never does. -/
def StoreOp.isMutation : StoreOp → Bool
  | .create _ => true
  | .update _ => true
  | .patch _ => true
  | .delete _ _ DeleteRes.ok => true
  | .delete _ _ _ => false
  | .load _ _ => false

/-- The reconciler's context: the image override constant, the operator-image
environment lookup, and the store's responses to each call the reconciler can
make (oracles standing for the external Resource Store collaborator). -/
structure Ctx where
  configListenerImageName : String
  operatorImage : Except String String
  loadDeployment : Except LoadErr Deployment
  createOk : BundleObject → Bool
  updateOk : BundleObject → Bool
  deleteRes : ObjKind → DeleteRes
  patchLoad : Option Deployment
  patchOk : Bool

/-- Result of one reconciler invocation: the ordered trace of store calls, and
whether the invocation requeued (signalled a retryable failure upward). -/
structure Outcome where
  trace : List StoreOp
  requeued : Bool
deriving DecidableEq, Repr

/-- Image resolution (config_listener.go lines 26-38): a non-empty override
constant is used verbatim, otherwise the operator's own image is looked up. -/
def resolveConfigListenerImage (ctx : Ctx) : Except String String :=
  if ctx.configListenerImageName ≠ "" then
    Except.ok ctx.configListenerImageName
  else
    ctx.operatorImage

/-- The shared ObjectMeta built at config_listener.go lines 44-47. -/
def mkObjectMeta (name ns : String) : ObjectMeta :=
  { name := name, ns := ns }

/-- The meta every bundle member is built with. -/
def listenerMeta (i : Infinispan) : ObjectMeta :=
  mkObjectMeta i.GetConfigListenerName i.ns

/-- The ServiceAccount built at lines 73-75. -/
def mkServiceAccount (meta : ObjectMeta) : ServiceAccount :=
  { meta := meta }

/-- The hardcoded rule set of the Role built at lines 80-115. -/
def configListenerRules : List PolicyRule :=
  [ { apiGroups := [v2alpha1Group]
      resources := ["caches"]
      verbs := ["create", "delete", "get", "list", "patch", "update", "watch"] },
    { apiGroups := [ispnv1Group]
      resources := ["infinispans"]
      verbs := ["get"] },
    { apiGroups := [""]
      resources := ["pods"]
      verbs := ["list"] },
    { apiGroups := [""]
      resources := ["pods/exec"]
      verbs := ["create"] },
    { apiGroups := [""]
      resources := ["secrets"]
      verbs := ["get"] } ]

/-- The Role built at lines 80-115. -/
def mkRole (meta : ObjectMeta) : Role :=
  { meta := meta, rules := configListenerRules }

/-- The RoleBinding built at lines 120-132. -/
def mkRoleBinding (meta : ObjectMeta) : RoleBinding :=
  { meta := meta
    roleRef := { apiGroup := "rbac.authorization.k8s.io", kind := "Role", name := meta.name }
    subjects := [{ kind := ServiceAccountKind, name := meta.name, ns := meta.ns }] }

/-- The Deployment built at lines 138-168: labels from the parent plus the
`app` discriminator, a selector matching them, and a single container running
`listener -namespace <ns> -cluster <name>`. No replica count is set. -/
def mkConfigListenerDeployment (name ns clusterName image : String)
    (podLabels : List (String × String)) : Deployment :=
  let labels := setLabel podLabels "app" "infinispan-config-listener-pod"
  { meta := mkObjectMeta name ns
    spec :=
      { selectorMatchLabels := labels
        template :=
          { meta := { labels := labels }
            spec :=
              { containers :=
                  [ { name := InfinispanListenerContainer
                      image := image
                      args := ["listener", "-namespace", ns, "-cluster", clusterName] } ]
                serviceAccountName := name } } } }

/-- The four bundle members in the order the create/update chain touches them:
ServiceAccount, Role, RoleBinding, Deployment. -/
def saObject (i : Infinispan) : BundleObject :=
  BundleObject.serviceAccount (mkServiceAccount (listenerMeta i))

/-- The Role bundle member. -/
def roleObject (i : Infinispan) : BundleObject :=
  BundleObject.role (mkRole (listenerMeta i))

/-- The RoleBinding bundle member. -/
def rbObject (i : Infinispan) : BundleObject :=
  BundleObject.roleBinding (mkRoleBinding (listenerMeta i))

/-- The Deployment bundle member, for a resolved image. -/
def depObject (i : Infinispan) (image : String) : BundleObject :=
  BundleObject.deployment
    (mkConfigListenerDeployment i.GetConfigListenerName i.ns i.name image i.PodLabels)

/-- The chain order of lines 72-171: ServiceAccount, Role, RoleBinding,
Deployment. -/
def chainObjects (i : Infinispan) (image : String) : List BundleObject :=
  [saObject i, roleObject i, rbObject i, depObject i image]

/-- The sequential fail-fast chain: each step issues its store call; a failed
step's call is recorded and every remaining step is skipped (each
`if err := createOrUpdate(...); err != nil { return }` block). -/
def runChain (exec : BundleObject → Bool) (mkOp : BundleObject → StoreOp) :
    List BundleObject → List StoreOp
  | [] => []
  | o :: rest =>
    if exec o then mkOp o :: runChain exec mkOp rest else [mkOp o]

/-- `RemoveConfigListener`'s deletion loop (lines 183-187): delete each object
by the shared name; not-found is ignored (continue); any other failure returns
immediately. -/
def deleteLoop (ctx : Ctx) (name : String) : List ObjKind → List StoreOp
  | [] => []
  | k :: rest =>
    match ctx.deleteRes k with
    | DeleteRes.ok => StoreOp.delete name k DeleteRes.ok :: deleteLoop ctx name rest
    | DeleteRes.notFound => StoreOp.delete name k DeleteRes.notFound :: deleteLoop ctx name rest
    | DeleteRes.otherErr => [StoreOp.delete name k DeleteRes.otherErr]

/-- `RemoveConfigListener` (lines 174-188): deletes the four bundle members by
the shared derived name, in the source's order Deployment, Role, RoleBinding,
ServiceAccount. -/
def RemoveConfigListener (i : Infinispan) (ctx : Ctx) : List StoreOp :=
  deleteLoop ctx i.GetConfigListenerName
    [ObjKind.deployment, ObjKind.role, ObjKind.roleBinding, ObjKind.serviceAccount]

/-- Failure modes of `ScaleConfigListener`. -/
inductive ScaleErr where
  | notFound
  | patchFailed
deriving DecidableEq, Repr

/-- `ScaleConfigListener` (lines 190-217): no-op when the feature is disabled;
otherwise CreateOrPatch on the deployment: the mutate closure signals NotFound
when the (loaded-or-fresh) object's creation timestamp is zero, aborting
without creating; otherwise it sets the replica count and the merged object is
persisted as a patch. The error, if any, is returned to the caller. -/
def ScaleConfigListener (replicas : Int) (i : Infinispan) (ctx : Ctx) :
    Except ScaleErr Unit × List StoreOp :=
  if ¬ i.IsConfigListenerEnabled then
    (Except.ok (), [])
  else
    let fresh : Deployment :=
      { meta := { name := i.GetConfigListenerName, ns := i.ns } }
    let deployment :=
      match ctx.patchLoad with
      | some d => d
      | none => fresh
    if deployment.meta.creationTimestampIsZero then
      (Except.error ScaleErr.notFound, [])
    else
      let merged : Deployment :=
        { deployment with spec := { deployment.spec with replicas := some replicas } }
      if ctx.patchOk then
        (Except.ok (), [StoreOp.patch merged])
      else
        (Except.error ScaleErr.patchFailed, [StoreOp.patch merged])

/-- The fast path of lines 51-63: when the deployment loaded and its named
listener container carries the resolved image, either scale to 1 (replicas
exactly 0, requeueing on scale failure) or do nothing; in every other case
(load failed, container absent, image mismatch) fall through to the chain. -/
def fastPathOutcome (i : Infinispan) (ctx : Ctx) (configListenerImage : String) :
    Option Outcome :=
  match ctx.loadDeployment with
  | Except.error _ => none
  | Except.ok deployment =>
    match GetContainer InfinispanListenerContainer deployment.spec.template.spec with
    | none => none
    | some container =>
      if container.image = configListenerImage then
        if deployment.spec.replicas = some 0 then
          match ScaleConfigListener 1 i ctx with
          | (Except.error _, tr) => some { trace := tr, requeued := true }
          | (Except.ok _, tr) => some { trace := tr, requeued := false }
        else
          some { trace := [], requeued := false }
      else
        none

/-- The `createOrUpdate` closure's branch decision (lines 65-71): whether this
object's store call succeeds, governed by whether the deployment load
succeeded — not by the object's own presence. -/
def chainExec (ctx : Ctx) (o : BundleObject) : Bool :=
  if ctx.loadDeployment.isOk then ctx.updateOk o else ctx.createOk o

/-- The store call the `createOrUpdate` closure issues for an object: Update
when the deployment load succeeded, Create otherwise. -/
def chainOp (ctx : Ctx) (o : BundleObject) : StoreOp :=
  if ctx.loadDeployment.isOk then StoreOp.update o else StoreOp.create o

/-- The trace of the four-step create/update chain of lines 72-171. -/
def chainTrace (i : Infinispan) (ctx : Ctx) (configListenerImage : String) :
    List StoreOp :=
  runChain (chainExec ctx) (chainOp ctx) (chainObjects i configListenerImage)

/-- `ConfigListener` (lines 20-172): teardown when disabled; resolve the image
(requeue on lookup failure); load the existing deployment; fast path when the
named container carries the resolved image; otherwise run the four-step
create/update chain. -/
def ConfigListener (i : Infinispan) (ctx : Ctx) : Outcome :=
  if ¬ i.IsConfigListenerEnabled then
    { trace := RemoveConfigListener i ctx, requeued := false }
  else
    match resolveConfigListenerImage ctx with
    | Except.error _ => { trace := [], requeued := true }
    | Except.ok configListenerImage =>
      let loadOp := StoreOp.load i.GetConfigListenerName ObjKind.deployment
      match fastPathOutcome i ctx configListenerImage with
      | some out => { trace := loadOp :: out.trace, requeued := out.requeued }
      | none =>
        { trace := loadOp :: chainTrace i ctx configListenerImage
          requeued := false }

/-- The metadata of a bundle object, whichever of the four kinds it is. -/
def BundleObject.meta : BundleObject → ObjectMeta
  | .serviceAccount sa => sa.meta
  | .role r => r.meta
  | .roleBinding rb => rb.meta
  | .deployment d => d.meta

/-! ### Concrete fixtures used by the witness theorems -/

/-- A parent cluster with the feature enabled. -/
def wIspn : Infinispan :=
  { name := "ex", ns := "ns1", configListenerEnabled := true
    labels := [("clusterName", "ex")] }

/-- A parent cluster with the feature disabled. -/
def wIdis : Infinispan :=
  { name := "off", ns := "ns1", configListenerEnabled := false, labels := [] }

/-- A context whose store succeeds at everything, with the image override set
and no deployment present. -/
def wCtxBase : Ctx :=
  { configListenerImageName := "img1"
    operatorImage := Except.error "no env"
    loadDeployment := Except.error LoadErr.notFound
    createOk := fun _ => true
    updateOk := fun _ => true
    deleteRes := fun _ => DeleteRes.ok
    patchLoad := none
    patchOk := true }

/-- A listener container already running the resolved image. -/
def wContainer1 : Container :=
  { name := InfinispanListenerContainer, image := "img1" }

/-- A listener container running a stale image. -/
def wContainerDrift : Container :=
  { name := InfinispanListenerContainer, image := "img2" }

/-- An existing deployment with matching image, scaled to zero. -/
def wDep0 : Deployment :=
  { meta := { name := "ex-config-listener", ns := "ns1", creationTimestampIsZero := false }
    spec := { replicas := some 0
              template := { spec := { containers := [wContainer1] } } } }

/-- An existing deployment with matching image and a nil replica pointer. -/
def wDepNil : Deployment :=
  { meta := { name := "ex-config-listener", ns := "ns1", creationTimestampIsZero := false }
    spec := { replicas := none
              template := { spec := { containers := [wContainer1] } } } }

/-- An existing deployment whose container image drifted from the resolved one. -/
def wDepDrift : Deployment :=
  { meta := { name := "ex-config-listener", ns := "ns1", creationTimestampIsZero := false }
    spec := { replicas := some 1
              template := { spec := { containers := [wContainerDrift] } } } }

/-- Store state for the zero-replica fast path. -/
def wCtxScale : Ctx :=
  { wCtxBase with loadDeployment := Except.ok wDep0, patchLoad := some wDep0 }

/-- Store state for the nil-replica fast path. -/
def wCtxNil : Ctx :=
  { wCtxBase with loadDeployment := Except.ok wDepNil, patchLoad := some wDepNil }

/-- Store state for the image-drift path. -/
def wCtxDrift : Ctx :=
  { wCtxBase with loadDeployment := Except.ok wDepDrift, patchLoad := some wDepDrift }

/-- Store state where the deployment load fails with a non-not-found error. -/
def wCtxLoadErr : Ctx :=
  { wCtxBase with loadDeployment := Except.error LoadErr.otherErr }

/-- Store state where every bundle member is already absent. -/
def wCtxAbsent : Ctx :=
  { wCtxBase with deleteRes := fun _ => DeleteRes.notFound }

/-- Store state where creating the Role fails and every other create succeeds. -/
def wCtxRoleFail : Ctx :=
  { wCtxBase with
      createOk := fun o =>
        match o with
        | BundleObject.role _ => false
        | _ => true }

/-- A context with no image override and a failing operator-image lookup. -/
def wCtxNoImg : Ctx :=
  { wCtxBase with configListenerImageName := "", operatorImage := Except.error "lookup failed" }

/-- The deployment the create path builds for `wIspn` and image `img1`. -/
def c2Dep : Deployment :=
  mkConfigListenerDeployment "ex-config-listener" "ns1" "ex" "img1" [("clusterName", "ex")]

/-! ### Helper lemmas -/

/-- Every store call issued by `ScaleConfigListener` is a patch. -/
theorem scale_trace_patch (r : Int) (i : Infinispan) (ctx : Ctx) :
    ∀ op ∈ (ScaleConfigListener r i ctx).2, ∃ d, op = StoreOp.patch d := by
  intro op hop
  unfold ScaleConfigListener at hop
  split at hop
  · simp at hop
  · dsimp only at hop
    split at hop
    · simp at hop
    · split at hop <;> simp at hop <;> exact ⟨_, hop⟩

/-- Every store call issued by the chain is `mkOp` of one of its objects. -/
theorem runChain_mem {exec : BundleObject → Bool} {mkOp : BundleObject → StoreOp}
    {objs : List BundleObject} {op : StoreOp} (h : op ∈ runChain exec mkOp objs) :
    ∃ o ∈ objs, op = mkOp o := by
  induction objs with
  | nil => simp [runChain] at h
  | cons o rest ih =>
    rw [runChain] at h
    split at h
    · rcases List.mem_cons.1 h with h1 | h1
      · exact ⟨o, List.mem_cons_self o rest, h1⟩
      · rcases ih h1 with ⟨o2, ho2, rfl⟩
        exact ⟨o2, List.mem_cons_of_mem o ho2, rfl⟩
    · rcases List.mem_singleton.1 h with rfl
      exact ⟨o, List.mem_cons_self o rest, rfl⟩

/-- The chain's trace is always a prefix of the full per-object call list:
steps run strictly in order and an aborted chain drops only a suffix. -/
theorem runChain_take (exec : BundleObject → Bool) (mkOp : BundleObject → StoreOp)
    (objs : List BundleObject) :
    ∃ n, runChain exec mkOp objs = (objs.map mkOp).take n := by
  induction objs with
  | nil => exact ⟨0, rfl⟩
  | cons o rest ih =>
    rw [runChain]
    split
    · rcases ih with ⟨n, hn⟩
      exact ⟨n + 1, by simp [hn]⟩
    · exact ⟨1, by simp⟩

/-- When every step succeeds the chain issues exactly one call per object. -/
theorem runChain_all_ok {exec : BundleObject → Bool} (mkOp : BundleObject → StoreOp)
    {objs : List BundleObject} (h : ∀ o ∈ objs, exec o = true) :
    runChain exec mkOp objs = objs.map mkOp := by
  induction objs with
  | nil => rfl
  | cons o rest ih =>
    rw [runChain, if_pos (h o (List.mem_cons_self o rest))]
    rw [ih fun o2 ho2 => h o2 (List.mem_cons_of_mem o ho2), List.map_cons]

/-- A delete whose result is not a hard failure records its call and continues. -/
theorem deleteLoop_cons_ok {ctx : Ctx} {k : ObjKind} (name : String) (rest : List ObjKind)
    (h : ctx.deleteRes k ≠ DeleteRes.otherErr) :
    deleteLoop ctx name (k :: rest) =
      StoreOp.delete name k (ctx.deleteRes k) :: deleteLoop ctx name rest := by
  rw [deleteLoop]
  rcases hk : ctx.deleteRes k
  · rfl
  · rfl
  · exact absurd hk h

/-- A delete that fails hard records its call and aborts the loop. -/
theorem deleteLoop_cons_err {ctx : Ctx} {k : ObjKind} (name : String) (rest : List ObjKind)
    (h : ctx.deleteRes k = DeleteRes.otherErr) :
    deleteLoop ctx name (k :: rest) = [StoreOp.delete name k DeleteRes.otherErr] := by
  rw [deleteLoop, h]

/-- An enabled invocation whose fast path fires: the trace is the load
followed by the fast path's trace. -/
theorem configListener_fast (i : Infinispan) (ctx : Ctx) (img : String) (out : Outcome)
    (hen : i.IsConfigListenerEnabled = true)
    (hres : resolveConfigListenerImage ctx = Except.ok img)
    (hfast : fastPathOutcome i ctx img = some out) :
    ConfigListener i ctx =
      { trace := StoreOp.load i.GetConfigListenerName ObjKind.deployment :: out.trace
        requeued := out.requeued } := by
  unfold ConfigListener
  rw [if_neg (by simp [hen]), hres]
  simp only
  rw [hfast]

/-- An enabled invocation that falls through to the chain: the trace is the
load followed by the chain's trace. -/
theorem configListener_chain (i : Infinispan) (ctx : Ctx) (img : String)
    (hen : i.IsConfigListenerEnabled = true)
    (hres : resolveConfigListenerImage ctx = Except.ok img)
    (hfast : fastPathOutcome i ctx img = none) :
    ConfigListener i ctx =
      { trace := StoreOp.load i.GetConfigListenerName ObjKind.deployment ::
          chainTrace i ctx img
        requeued := false } := by
  unfold ConfigListener
  rw [if_neg (by simp [hen]), hres]
  simp only
  rw [hfast]

/-- When the deployment load fails the fast path is skipped. -/
theorem fastPathOutcome_load_err (i : Infinispan) (ctx : Ctx) (img : String) (e : LoadErr)
    (hload : ctx.loadDeployment = Except.error e) :
    fastPathOutcome i ctx img = none := by
  unfold fastPathOutcome
  rw [hload]

/-- When the loaded deployment has no listener container the fast path is
skipped (forced update). -/
theorem fastPathOutcome_no_container (i : Infinispan) (ctx : Ctx) (img : String)
    (d : Deployment) (hload : ctx.loadDeployment = Except.ok d)
    (hcont : GetContainer InfinispanListenerContainer d.spec.template.spec = none) :
    fastPathOutcome i ctx img = none := by
  unfold fastPathOutcome
  rw [hload]
  simp only
  rw [hcont]

/-- When the loaded deployment's listener container image differs from the
resolved image the fast path is skipped (forced update). -/
theorem fastPathOutcome_mismatch (i : Infinispan) (ctx : Ctx) (img : String)
    (d : Deployment) (c : Container) (hload : ctx.loadDeployment = Except.ok d)
    (hcont : GetContainer InfinispanListenerContainer d.spec.template.spec = some c)
    (himg : c.image ≠ img) :
    fastPathOutcome i ctx img = none := by
  unfold fastPathOutcome
  rw [hload]
  simp only
  rw [hcont]
  simp only
  rw [if_neg (by simpa using himg)]

/-- Matching image with replicas exactly 0: the fast path is the scale call. -/
theorem fastPathOutcome_scale (i : Infinispan) (ctx : Ctx) (img : String)
    (d : Deployment) (c : Container) (hload : ctx.loadDeployment = Except.ok d)
    (hcont : GetContainer InfinispanListenerContainer d.spec.template.spec = some c)
    (himg : c.image = img) (h0 : d.spec.replicas = some 0) :
    ∃ b, fastPathOutcome i ctx img =
      some { trace := (ScaleConfigListener 1 i ctx).2, requeued := b } := by
  unfold fastPathOutcome
  rw [hload]
  simp only
  rw [hcont]
  simp only
  rw [if_pos (by simpa using himg), if_pos h0]
  rcases hS : ScaleConfigListener 1 i ctx with ⟨res, tr⟩
  cases res
  · exact ⟨true, rfl⟩
  · exact ⟨false, rfl⟩

/-- Matching image with replicas not exactly 0: the fast path is a no-op. -/
theorem fastPathOutcome_noop (i : Infinispan) (ctx : Ctx) (img : String)
    (d : Deployment) (c : Container) (hload : ctx.loadDeployment = Except.ok d)
    (hcont : GetContainer InfinispanListenerContainer d.spec.template.spec = some c)
    (himg : c.image = img) (h0 : d.spec.replicas ≠ some 0) :
    fastPathOutcome i ctx img = some { trace := [], requeued := false } := by
  unfold fastPathOutcome
  rw [hload]
  simp only
  rw [hcont]
  simp only
  rw [if_pos (by simpa using himg), if_neg (by simpa using h0)]

/-- A chain store call is never a load. -/
theorem chainOp_ne_load (ctx : Ctx) (o : BundleObject) (n : String) (k : ObjKind) :
    chainOp ctx o ≠ StoreOp.load n k := by
  unfold chainOp
  split <;> exact fun hc => nomatch hc

/-- The chain's store call determines the object it was issued for. -/
theorem chainOp_inj (ctx : Ctx) {o1 o2 : BundleObject}
    (h : chainOp ctx o1 = chainOp ctx o2) : o1 = o2 := by
  unfold chainOp at h
  split at h <;> injection h

/-- Every store call issued by the deletion loop is a delete by the given name. -/
theorem deleteLoop_ops (ctx : Ctx) (name : String) (ks : List ObjKind) :
    ∀ op ∈ deleteLoop ctx name ks, ∃ k r, op = StoreOp.delete name k r := by
  induction ks with
  | nil =>
    intro op hop
    simp [deleteLoop] at hop
  | cons k rest ih =>
    intro op hop
    rw [deleteLoop] at hop
    split at hop
    · rcases List.mem_cons.1 hop with rfl | hop2
      · exact ⟨k, DeleteRes.ok, rfl⟩
      · exact ih op hop2
    · rcases List.mem_cons.1 hop with rfl | hop2
      · exact ⟨k, DeleteRes.notFound, rfl⟩
      · exact ih op hop2
    · rcases List.mem_singleton.1 hop with rfl
      exact ⟨k, DeleteRes.otherErr, rfl⟩

/-- Every store call a fired fast path issues is a patch. -/
theorem fastPathOutcome_ops (i : Infinispan) (ctx : Ctx) (img : String) (out : Outcome)
    (h : fastPathOutcome i ctx img = some out) :
    ∀ op ∈ out.trace, ∃ d, op = StoreOp.patch d := by
  unfold fastPathOutcome at h
  split at h
  · exact nomatch h
  · split at h
    · exact nomatch h
    · split at h
      · split at h
        · split at h
          · rename_i heq
            injection h with h2
            subst h2
            intro op hop
            exact scale_trace_patch 1 i ctx op (by rw [heq]; exact hop)
          · rename_i heq
            injection h with h2
            subst h2
            intro op hop
            exact scale_trace_patch 1 i ctx op (by rw [heq]; exact hop)
        · injection h with h2
          subst h2
          intro op hop
          simp at hop
      · exact nomatch h

/-- Shape of every store call an invocation can issue: a delete (teardown), the
deployment load, a patch (scale), or a create/update of one of the four chain
objects for the resolved image. -/
theorem configListener_trace_ops (i : Infinispan) (ctx : Ctx) (op : StoreOp)
    (h : op ∈ (ConfigListener i ctx).trace) :
    (∃ n k r, op = StoreOp.delete n k r) ∨ (∃ n k, op = StoreOp.load n k) ∨
    (∃ d, op = StoreOp.patch d) ∨
    (∃ img o, resolveConfigListenerImage ctx = Except.ok img ∧
      o ∈ chainObjects i img ∧ chainOp ctx o = op) := by
  unfold ConfigListener at h
  split at h
  · simp only at h
    rcases deleteLoop_ops ctx i.GetConfigListenerName _ op h with ⟨k, r, rfl⟩
    exact Or.inl ⟨_, k, r, rfl⟩
  · split at h
    · simp at h
    · rename_i img heq
      simp only at h
      split at h
      · rename_i out hfast
        simp only at h
        rcases List.mem_cons.1 h with rfl | h2
        · exact Or.inr (Or.inl ⟨_, _, rfl⟩)
        · rcases fastPathOutcome_ops i ctx img out hfast op h2 with ⟨d, rfl⟩
          exact Or.inr (Or.inr (Or.inl ⟨d, rfl⟩))
      · simp only at h
        rcases List.mem_cons.1 h with rfl | h2
        · exact Or.inr (Or.inl ⟨_, _, rfl⟩)
        · rcases runChain_mem h2 with ⟨o, ho, rfl⟩
          exact Or.inr (Or.inr (Or.inr ⟨img, o, heq, ho, rfl⟩))

/-! ### Claim theorems -/

/-- C1: with the feature enabled, the deployment loaded, and the listener
container carrying the resolved image: replicas exactly 0 invokes only the
scale call (every mutation in the trace is a patch of the deployment); a
positive replica count performs no store mutation at all (the trace is the
single load). -/
theorem C1_fast_path_idempotent (i : Infinispan) (ctx : Ctx) (d : Deployment)
    (c : Container) (img : String)
    (hen : i.IsConfigListenerEnabled = true)
    (hres : resolveConfigListenerImage ctx = Except.ok img)
    (hload : ctx.loadDeployment = Except.ok d)
    (hcont : GetContainer InfinispanListenerContainer d.spec.template.spec = some c)
    (himg : c.image = img) :
    (d.spec.replicas = some 0 →
      (ConfigListener i ctx).trace =
        StoreOp.load i.GetConfigListenerName ObjKind.deployment ::
          (ScaleConfigListener 1 i ctx).2 ∧
      ∀ op ∈ (ConfigListener i ctx).trace, op.isMutation = true →
        ∃ d2, op = StoreOp.patch d2) ∧
    (∀ n : Int, 0 < n → d.spec.replicas = some n →
      (ConfigListener i ctx).trace =
        [StoreOp.load i.GetConfigListenerName ObjKind.deployment] ∧
      ∀ op ∈ (ConfigListener i ctx).trace, op.isMutation = false) := by
  constructor
  · intro h0
    rcases fastPathOutcome_scale i ctx img d c hload hcont himg h0 with ⟨b, hfast⟩
    rw [configListener_fast i ctx img _ hen hres hfast]
    refine ⟨rfl, ?_⟩
    intro op hop hmut
    rcases List.mem_cons.1 hop with rfl | hop2
    · exact absurd hmut (by simp [StoreOp.isMutation])
    · exact scale_trace_patch 1 i ctx op hop2
  · intro n hn hrep
    have hne : d.spec.replicas ≠ some 0 := by
      rw [hrep]
      intro hc
      injection hc with h
      omega
    rw [configListener_fast i ctx img _ hen hres
      (fastPathOutcome_noop i ctx img d c hload hcont himg hne)]
    refine ⟨rfl, ?_⟩
    intro op hop
    rcases List.mem_cons.1 hop with rfl | hop2
    · rfl
    · simp at hop2

/-- C9: with a matching image but a nil (unset) replica pointer, the reconciler
takes the no-op branch and never invokes the scale operation; and the
deployment object built on the create/update path never sets a replica count. -/
theorem C9_nil_replicas_noop (i : Infinispan) (ctx : Ctx) (d : Deployment)
    (c : Container) (img : String)
    (hen : i.IsConfigListenerEnabled = true)
    (hres : resolveConfigListenerImage ctx = Except.ok img)
    (hload : ctx.loadDeployment = Except.ok d)
    (hcont : GetContainer InfinispanListenerContainer d.spec.template.spec = some c)
    (himg : c.image = img)
    (hnil : d.spec.replicas = none) :
    (ConfigListener i ctx).trace =
      [StoreOp.load i.GetConfigListenerName ObjKind.deployment] ∧
    ∀ name ns clusterName image podLabels,
      (mkConfigListenerDeployment name ns clusterName image podLabels).spec.replicas
        = none := by
  have hne : d.spec.replicas ≠ some 0 := by
    rw [hnil]
    exact fun hc => nomatch hc
  rw [configListener_fast i ctx img _ hen hres
    (fastPathOutcome_noop i ctx img d c hload hcont himg hne)]
  exact ⟨rfl, fun _ _ _ _ _ => rfl⟩

/-- C6: when the loaded deployment's listener container is absent or carries a
different image, the invocation runs the chain in Update mode for all four
bundle objects — the branch decision is the deployment load's success alone. -/
theorem C6_drift_updates_all (i : Infinispan) (ctx : Ctx) (img : String) (d : Deployment)
    (hen : i.IsConfigListenerEnabled = true)
    (hres : resolveConfigListenerImage ctx = Except.ok img)
    (hload : ctx.loadDeployment = Except.ok d)
    (hmm : ∀ c, GetContainer InfinispanListenerContainer d.spec.template.spec = some c →
      c.image ≠ img) :
    (ConfigListener i ctx).trace =
      StoreOp.load i.GetConfigListenerName ObjKind.deployment ::
        runChain ctx.updateOk StoreOp.update (chainObjects i img) ∧
    ((∀ o, ctx.updateOk o = true) →
      (ConfigListener i ctx).trace =
        [StoreOp.load i.GetConfigListenerName ObjKind.deployment,
         StoreOp.update (saObject i), StoreOp.update (roleObject i),
         StoreOp.update (rbObject i), StoreOp.update (depObject i img)]) := by
  have hfast : fastPathOutcome i ctx img = none := by
    cases hcont : GetContainer InfinispanListenerContainer d.spec.template.spec with
    | none => exact fastPathOutcome_no_container i ctx img d hload hcont
    | some c => exact fastPathOutcome_mismatch i ctx img d c hload hcont (hmm c hcont)
  have hex : ctx.loadDeployment.isOk = true := by rw [hload]; rfl
  have htr : chainTrace i ctx img =
      runChain ctx.updateOk StoreOp.update (chainObjects i img) := by
    unfold chainTrace
    have h1 : chainExec ctx = ctx.updateOk := by
      funext o
      simp [chainExec, hex]
    have h2 : chainOp ctx = StoreOp.update := by
      funext o
      simp [chainOp, hex]
    rw [h1, h2]
  rw [configListener_chain i ctx img hen hres hfast, htr]
  refine ⟨rfl, ?_⟩
  intro hall
  rw [runChain_all_ok StoreOp.update (fun o _ => hall o)]
  rfl

/-- C10: deployment existence is exactly a successful Load: any load failure,
not-found or otherwise, sends the invocation down the full-bundle Create path
(no abort, no requeue, no Update mode). -/
theorem C10_load_failure_creates (i : Infinispan) (ctx : Ctx) (img : String) (e : LoadErr)
    (hen : i.IsConfigListenerEnabled = true)
    (hres : resolveConfigListenerImage ctx = Except.ok img)
    (hload : ctx.loadDeployment = Except.error e) :
    (ConfigListener i ctx).trace =
      StoreOp.load i.GetConfigListenerName ObjKind.deployment ::
        runChain ctx.createOk StoreOp.create (chainObjects i img) ∧
    (ConfigListener i ctx).requeued = false := by
  have hfast := fastPathOutcome_load_err i ctx img e hload
  have hex : ctx.loadDeployment.isOk = false := by rw [hload]; rfl
  have htr : chainTrace i ctx img =
      runChain ctx.createOk StoreOp.create (chainObjects i img) := by
    unfold chainTrace
    have h1 : chainExec ctx = ctx.createOk := by
      funext o
      simp [chainExec, hex]
    have h2 : chainOp ctx = StoreOp.create := by
      funext o
      simp [chainOp, hex]
    rw [h1, h2]
  rw [configListener_chain i ctx img hen hres hfast, htr]
  exact ⟨rfl, rfl⟩

/-- C4: with the feature disabled, ConfigListener invokes teardown and nothing
else; teardown attempts to delete all four bundle members by the shared name
(continuing past not-found results), the first non-not-found failure aborts
the remaining deletions, and when all four objects are already absent the
invocation performs no observable mutation. -/
theorem C4_teardown (i : Infinispan) (ctx : Ctx)
    (hdis : i.IsConfigListenerEnabled = false) :
    ConfigListener i ctx = { trace := RemoveConfigListener i ctx, requeued := false } ∧
    ((∀ k, ctx.deleteRes k ≠ DeleteRes.otherErr) →
      RemoveConfigListener i ctx =
        [StoreOp.delete i.GetConfigListenerName ObjKind.deployment (ctx.deleteRes ObjKind.deployment),
         StoreOp.delete i.GetConfigListenerName ObjKind.role (ctx.deleteRes ObjKind.role),
         StoreOp.delete i.GetConfigListenerName ObjKind.roleBinding (ctx.deleteRes ObjKind.roleBinding),
         StoreOp.delete i.GetConfigListenerName ObjKind.serviceAccount (ctx.deleteRes ObjKind.serviceAccount)]) ∧
    (ctx.deleteRes ObjKind.deployment ≠ DeleteRes.otherErr →
      ctx.deleteRes ObjKind.role = DeleteRes.otherErr →
      RemoveConfigListener i ctx =
        [StoreOp.delete i.GetConfigListenerName ObjKind.deployment (ctx.deleteRes ObjKind.deployment),
         StoreOp.delete i.GetConfigListenerName ObjKind.role DeleteRes.otherErr]) ∧
    ((∀ k, ctx.deleteRes k = DeleteRes.notFound) →
      ∀ op ∈ (ConfigListener i ctx).trace, op.isMutation = false) := by
  have htear : ConfigListener i ctx = { trace := RemoveConfigListener i ctx, requeued := false } := by
    unfold ConfigListener
    rw [if_pos (by simp [hdis])]
  refine ⟨htear, ?_, ?_, ?_⟩
  · intro h
    unfold RemoveConfigListener
    rw [deleteLoop_cons_ok _ _ (h _), deleteLoop_cons_ok _ _ (h _),
      deleteLoop_cons_ok _ _ (h _), deleteLoop_cons_ok _ _ (h _)]
    rfl
  · intro h1 h2
    unfold RemoveConfigListener
    rw [deleteLoop_cons_ok _ _ h1, deleteLoop_cons_err _ _ h2]
  · intro h op hop
    rw [htear] at hop
    unfold RemoveConfigListener at hop
    rw [deleteLoop_cons_ok _ _ (by rw [h]; exact fun hc => nomatch hc),
      deleteLoop_cons_ok _ _ (by rw [h]; exact fun hc => nomatch hc),
      deleteLoop_cons_ok _ _ (by rw [h]; exact fun hc => nomatch hc),
      deleteLoop_cons_ok _ _ (by rw [h]; exact fun hc => nomatch hc)] at hop
    simp only [deleteLoop, List.mem_cons, List.not_mem_nil, or_false] at hop
    rcases hop with rfl | rfl | rfl | rfl <;> rw [h _] <;> rfl

/-- C5: ScaleConfigListener is a successful no-op when the feature is
disabled; with the feature enabled it fails with NotFound (creating nothing)
when the deployment is absent or carries a zero creation timestamp; when the
deployment exists it persists exactly one patch setting the replica count to
the target, and a patch failure is returned to the caller with no retry. -/
theorem C5_scale (i : Infinispan) (ctx : Ctx) (r : Int) :
    (i.IsConfigListenerEnabled = false →
      ScaleConfigListener r i ctx = (Except.ok (), [])) ∧
    (i.IsConfigListenerEnabled = true →
      (∀ d, ctx.patchLoad = some d → d.meta.creationTimestampIsZero = true →
        ScaleConfigListener r i ctx = (Except.error ScaleErr.notFound, [])) ∧
      (ctx.patchLoad = none →
        ScaleConfigListener r i ctx = (Except.error ScaleErr.notFound, [])) ∧
      (∀ d, ctx.patchLoad = some d → d.meta.creationTimestampIsZero = false →
        ScaleConfigListener r i ctx =
          ((if ctx.patchOk then Except.ok () else Except.error ScaleErr.patchFailed),
           [StoreOp.patch { d with spec := { d.spec with replicas := some r } }]))) := by
  constructor
  · intro hdis
    unfold ScaleConfigListener
    rw [if_pos (by simp [hdis])]
  · intro hen
    refine ⟨?_, ?_, ?_⟩
    · intro d hd hz
      unfold ScaleConfigListener
      rw [if_neg (by simp [hen]), hd]
      simp only
      rw [if_pos hz]
    · intro hd
      unfold ScaleConfigListener
      rw [if_neg (by simp [hen]), hd]
      rfl
    · intro d hd hz
      unfold ScaleConfigListener
      rw [if_neg (by simp [hen]), hd]
      simp only
      rw [if_neg (by rw [hz]; exact fun hc => nomatch hc)]
      split <;> rfl

/-- C7: with the feature enabled, a non-empty override constant is used as the
desired image verbatim; with an empty override, a failed operator-image lookup
ends the invocation as a requeue before any store call is made. -/
theorem C7_image_resolution (i : Infinispan) (ctx : Ctx)
    (hen : i.IsConfigListenerEnabled = true) :
    (ctx.configListenerImageName ≠ "" →
      resolveConfigListenerImage ctx = Except.ok ctx.configListenerImageName) ∧
    (∀ e, ctx.configListenerImageName = "" → ctx.operatorImage = Except.error e →
      ConfigListener i ctx = { trace := [], requeued := true }) := by
  constructor
  · intro h
    unfold resolveConfigListenerImage
    rw [if_pos h]
  · intro e hemp hop
    unfold ConfigListener
    rw [if_neg (by simp [hen])]
    have hres : resolveConfigListenerImage ctx = Except.error e := by
      unfold resolveConfigListenerImage
      rw [if_neg (by simp [hemp]), hop]
    rw [hres]

/-- C3: every invocation that reaches the create/update chain issues its store
calls as a prefix of the ordered four-step sequence ServiceAccount, Role,
RoleBinding, Deployment (fail-fast, no rollback); in particular, if the
ServiceAccount step succeeds and the Role step fails, the RoleBinding and
Deployment calls are never attempted. -/
theorem C3_fail_fast_order (i : Infinispan) (ctx : Ctx) (img : String)
    (hen : i.IsConfigListenerEnabled = true)
    (hres : resolveConfigListenerImage ctx = Except.ok img)
    (hfast : fastPathOutcome i ctx img = none) :
    (∃ n, (ConfigListener i ctx).trace =
      StoreOp.load i.GetConfigListenerName ObjKind.deployment ::
        ((chainObjects i img).map (chainOp ctx)).take n) ∧
    (chainExec ctx (saObject i) = true → chainExec ctx (roleObject i) = false →
      (ConfigListener i ctx).trace =
        [StoreOp.load i.GetConfigListenerName ObjKind.deployment,
         chainOp ctx (saObject i), chainOp ctx (roleObject i)] ∧
      chainOp ctx (rbObject i) ∉ (ConfigListener i ctx).trace ∧
      chainOp ctx (depObject i img) ∉ (ConfigListener i ctx).trace) := by
  rw [configListener_chain i ctx img hen hres hfast]
  constructor
  · rcases runChain_take (chainExec ctx) (chainOp ctx) (chainObjects i img) with ⟨n, hn⟩
    exact ⟨n, by rw [show chainTrace i ctx img =
      runChain (chainExec ctx) (chainOp ctx) (chainObjects i img) from rfl, hn]⟩
  · intro hsa hrole
    have htr : chainTrace i ctx img =
        [chainOp ctx (saObject i), chainOp ctx (roleObject i)] := by
      unfold chainTrace chainObjects
      rw [runChain, if_pos hsa, runChain, if_neg (by simp [hrole])]
    have hne1 : rbObject i ≠ saObject i := by
      unfold rbObject saObject
      exact fun hc => nomatch hc
    have hne2 : rbObject i ≠ roleObject i := by
      unfold rbObject roleObject
      exact fun hc => nomatch hc
    have hne3 : depObject i img ≠ saObject i := by
      unfold depObject saObject
      exact fun hc => nomatch hc
    have hne4 : depObject i img ≠ roleObject i := by
      unfold depObject roleObject
      exact fun hc => nomatch hc
    refine ⟨by rw [htr], ?_, ?_⟩
    · intro hmem
      simp only [htr, List.mem_cons, List.not_mem_nil, or_false] at hmem
      rcases hmem with h | h | h
      · exact chainOp_ne_load ctx _ _ _ h
      · exact hne1 (chainOp_inj ctx h)
      · exact hne2 (chainOp_inj ctx h)
    · intro hmem
      simp only [htr, List.mem_cons, List.not_mem_nil, or_false] at hmem
      rcases hmem with h | h | h
      · exact chainOp_ne_load ctx _ _ _ h
      · exact hne3 (chainOp_inj ctx h)
      · exact hne4 (chainOp_inj ctx h)

/-- C2 counterexample: on a concrete enabled input with no prior deployment and
an all-succeeding store, one invocation creates the four objects in order, but
the created deployment's replica count is nil, not 1 — the claim's "replica
count equals 1" is false of the object the reconciler builds and stores. -/
theorem C2_counterexample :
    (ConfigListener wIspn wCtxBase).trace =
      [StoreOp.load "ex-config-listener" ObjKind.deployment,
       StoreOp.create (saObject wIspn), StoreOp.create (roleObject wIspn),
       StoreOp.create (rbObject wIspn),
       StoreOp.create (BundleObject.deployment c2Dep)] ∧
    c2Dep.spec.replicas ≠ some 1 := by
  exact ⟨rfl, by decide⟩

/-- C2 (amended): with the feature enabled, the image resolved, no prior
deployment, and every store call succeeding, the invocation creates all four
bundle objects with the shared derived name and the parent's namespace, in the
order Identity, Grant, GrantBinding, WorkerDeployment; the created
deployment's single listener container runs the resolved image, and its
replica count is left unset (defaulted by the platform). -/
theorem C2_amended_bundle_create (i : Infinispan) (ctx : Ctx) (img : String) (e : LoadErr)
    (hen : i.IsConfigListenerEnabled = true)
    (hres : resolveConfigListenerImage ctx = Except.ok img)
    (hload : ctx.loadDeployment = Except.error e)
    (hok : ∀ o, ctx.createOk o = true) :
    (ConfigListener i ctx).trace =
      [StoreOp.load i.GetConfigListenerName ObjKind.deployment,
       StoreOp.create (saObject i), StoreOp.create (roleObject i),
       StoreOp.create (rbObject i), StoreOp.create (depObject i img)] ∧
    (∀ o ∈ chainObjects i img,
      o.meta.name = i.GetConfigListenerName ∧ o.meta.ns = i.ns) ∧
    (∀ d, depObject i img = BundleObject.deployment d →
      d.spec.replicas = none ∧
      ∃ c, d.spec.template.spec.containers = [c] ∧
        c.name = InfinispanListenerContainer ∧ c.image = img) := by
  have hfast := fastPathOutcome_load_err i ctx img e hload
  have hex : ctx.loadDeployment.isOk = false := by rw [hload]; rfl
  have hexec : ∀ o ∈ chainObjects i img, chainExec ctx o = true := by
    intro o _
    simp [chainExec, hex, hok]
  have htr : chainTrace i ctx img = (chainObjects i img).map (chainOp ctx) :=
    runChain_all_ok (chainOp ctx) hexec
  rw [configListener_chain i ctx img hen hres hfast]
  refine ⟨?_, ?_, ?_⟩
  · rw [htr]
    simp [chainObjects, chainOp, hex]
  · intro o ho
    simp only [chainObjects, List.mem_cons, List.not_mem_nil, or_false] at ho
    rcases ho with rfl | rfl | rfl | rfl
    · exact ⟨rfl, rfl⟩
    · exact ⟨rfl, rfl⟩
    · exact ⟨rfl, rfl⟩
    · exact ⟨rfl, rfl⟩
  · intro d hd
    unfold depObject at hd
    injection hd with h2
    subst h2
    exact ⟨rfl, _, rfl, rfl, rfl⟩

/-- C8: every Deployment object the reconciler hands to the store's create or
update call has exactly one container, whose argument list is exactly
`["listener", "-namespace", <parent namespace>, "-cluster", <parent name>]`. -/
theorem C8_container_args (i : Infinispan) (ctx : Ctx) (d : Deployment)
    (h : StoreOp.create (BundleObject.deployment d) ∈ (ConfigListener i ctx).trace ∨
      StoreOp.update (BundleObject.deployment d) ∈ (ConfigListener i ctx).trace) :
    ∃ c, d.spec.template.spec.containers = [c] ∧
      c.args = ["listener", "-namespace", i.ns, "-cluster", i.name] := by
  have key : ∀ img o, o ∈ chainObjects i img → o = BundleObject.deployment d →
      ∃ c, d.spec.template.spec.containers = [c] ∧
        c.args = ["listener", "-namespace", i.ns, "-cluster", i.name] := by
    intro img o ho hde
    simp only [chainObjects, List.mem_cons, List.not_mem_nil, or_false] at ho
    rcases ho with rfl | rfl | rfl | rfl
    · exact absurd hde (by unfold saObject; exact fun hc => nomatch hc)
    · exact absurd hde (by unfold roleObject; exact fun hc => nomatch hc)
    · exact absurd hde (by unfold rbObject; exact fun hc => nomatch hc)
    · unfold depObject at hde
      injection hde with h2
      rw [← h2]
      exact ⟨_, rfl, rfl⟩
  rcases h with h | h
  · rcases configListener_trace_ops i ctx _ h with
      ⟨n, k, r, he⟩ | ⟨n, k, he⟩ | ⟨d2, he⟩ | ⟨img, o, _, ho, he⟩
    · exact nomatch he
    · exact nomatch he
    · exact nomatch he
    · unfold chainOp at he
      split at he
      · exact nomatch he
      · injection he with h2
        exact key img o ho h2
  · rcases configListener_trace_ops i ctx _ h with
      ⟨n, k, r, he⟩ | ⟨n, k, he⟩ | ⟨d2, he⟩ | ⟨img, o, _, ho, he⟩
    · exact nomatch he
    · exact nomatch he
    · exact nomatch he
    · unfold chainOp at he
      split at he
      · injection he with h2
        exact key img o ho h2
      · exact nomatch he

/-! ### Witnesses: the claim theorems applied at concrete inputs -/

/-- C1 at a concrete zero-replica store: the trace is the load then the scale. -/
theorem C1_witness :
    (ConfigListener wIspn wCtxScale).trace =
      StoreOp.load "ex-config-listener" ObjKind.deployment ::
        (ScaleConfigListener 1 wIspn wCtxScale).2 :=
  ((C1_fast_path_idempotent wIspn wCtxScale wDep0 wContainer1 "img1"
    rfl rfl rfl rfl rfl).1 rfl).1

/-- C2 (amended) at a concrete empty store: the four ordered creates. -/
theorem C2_witness :
    (ConfigListener wIspn wCtxBase).trace =
      [StoreOp.load "ex-config-listener" ObjKind.deployment,
       StoreOp.create (saObject wIspn), StoreOp.create (roleObject wIspn),
       StoreOp.create (rbObject wIspn), StoreOp.create (depObject wIspn "img1")] :=
  (C2_amended_bundle_create wIspn wCtxBase "img1" LoadErr.notFound
    rfl rfl rfl (fun _ => rfl)).1

/-- C3 at a concrete store where the Role create fails: the chain aborts after
the Role call. -/
theorem C3_witness :
    (ConfigListener wIspn wCtxRoleFail).trace =
      [StoreOp.load "ex-config-listener" ObjKind.deployment,
       chainOp wCtxRoleFail (saObject wIspn), chainOp wCtxRoleFail (roleObject wIspn)] :=
  ((C3_fail_fast_order wIspn wCtxRoleFail "img1" rfl rfl rfl).2 rfl rfl).1

/-- C4 at a concrete disabled parent with every object already absent: four
not-found deletes and nothing else. -/
theorem C4_witness :
    ConfigListener wIdis wCtxAbsent =
      { trace :=
          [StoreOp.delete "off-config-listener" ObjKind.deployment DeleteRes.notFound,
           StoreOp.delete "off-config-listener" ObjKind.role DeleteRes.notFound,
           StoreOp.delete "off-config-listener" ObjKind.roleBinding DeleteRes.notFound,
           StoreOp.delete "off-config-listener" ObjKind.serviceAccount DeleteRes.notFound]
        requeued := false } := by
  have h := C4_teardown wIdis wCtxAbsent rfl
  rw [h.1, h.2.1 (fun k => by cases k <;> decide)]
  rfl

/-- C5 at a concrete existing deployment: one patch setting replicas to 1. -/
theorem C5_witness :
    ScaleConfigListener 1 wIspn wCtxScale =
      ((if wCtxScale.patchOk then Except.ok () else Except.error ScaleErr.patchFailed),
       [StoreOp.patch { wDep0 with spec := { wDep0.spec with replicas := some 1 } }]) :=
  ((C5_scale wIspn wCtxScale 1).2 rfl).2.2 wDep0 rfl rfl

/-- C6 at a concrete drifted deployment: all four objects are updated. -/
theorem C6_witness :
    (ConfigListener wIspn wCtxDrift).trace =
      [StoreOp.load "ex-config-listener" ObjKind.deployment,
       StoreOp.update (saObject wIspn), StoreOp.update (roleObject wIspn),
       StoreOp.update (rbObject wIspn), StoreOp.update (depObject wIspn "img1")] :=
  (C6_drift_updates_all wIspn wCtxDrift "img1" wDepDrift rfl rfl rfl
    (fun c hc => by
      have h2 : some wContainerDrift = some c := hc
      injection h2 with h3
      rw [← h3]
      decide)).2 (fun _ => rfl)

/-- C7 at a concrete context with no override and a failing lookup: the
invocation requeues with an empty trace. -/
theorem C7_witness :
    ConfigListener wIspn wCtxNoImg = { trace := [], requeued := true } :=
  (C7_image_resolution wIspn wCtxNoImg rfl).2 "lookup failed" rfl rfl

/-- C8 at the concretely created deployment: one container with the exact
argument list. -/
theorem C8_witness :
    ∃ c, c2Dep.spec.template.spec.containers = [c] ∧
      c.args = ["listener", "-namespace", "ns1", "-cluster", "ex"] :=
  C8_container_args wIspn wCtxBase c2Dep
    (Or.inl (by
      have htr : (ConfigListener wIspn wCtxBase).trace =
          [StoreOp.load "ex-config-listener" ObjKind.deployment,
           StoreOp.create (saObject wIspn), StoreOp.create (roleObject wIspn),
           StoreOp.create (rbObject wIspn),
           StoreOp.create (BundleObject.deployment c2Dep)] := rfl
      rw [htr]
      exact List.mem_cons_of_mem _ (List.mem_cons_of_mem _ (List.mem_cons_of_mem _
        (List.mem_cons_of_mem _ (List.mem_cons_self _ _))))))

/-- C9 at a concrete nil-replica deployment: the trace is the single load. -/
theorem C9_witness :
    (ConfigListener wIspn wCtxNil).trace =
      [StoreOp.load "ex-config-listener" ObjKind.deployment] :=
  (C9_nil_replicas_noop wIspn wCtxNil wDepNil wContainer1 "img1"
    rfl rfl rfl rfl rfl rfl).1

/-- C10 at a concrete non-not-found load failure: the full create chain runs. -/
theorem C10_witness :
    (ConfigListener wIspn wCtxLoadErr).trace =
      StoreOp.load "ex-config-listener" ObjKind.deployment ::
        runChain wCtxLoadErr.createOk StoreOp.create (chainObjects wIspn "img1") :=
  (C10_load_failure_creates wIspn wCtxLoadErr "img1" LoadErr.otherErr rfl rfl rfl).1

end InfinispanOperator
